import Mathlib

/-!
Verification of the debounce-and-edge-detection core of the
OctoPrint-Filament-Sensor-Universal plugin
(`octoprint_filamentsensoruniversal/__init__.py`).

Time stamps and debounce intervals are modelled as rationals (the source
uses `time.time()` seconds); raw line reads become explicit `Bool`
parameters (the source samples `self.raw` once per `update`); fallible
GPIO reads and printer calls become `Except Unit` values.
-/

namespace FilamentSensor

/-- State of `Debouncer` (`__init__.py`, class `Debouncer`).  The field
`value` is the debounced (stable) value; `lastValue` mirrors
`_last_value`, `lastChangeTime` mirrors `_last_change_time`. -/
structure Debouncer where
  interval : ℚ
  value : Bool
  rising : Bool
  falling : Bool
  lastValue : Bool
  lastChangeTime : ℚ
  deriving Repr, DecidableEq

/-- Constructor `Debouncer.__init__`: `value` and `_last_value` start at the current
raw reading, `_last_change_time` at creation time, edge flags false. -/
def Debouncer.init (interval : ℚ) (raw : Bool) (creationTime : ℚ) : Debouncer :=
  { interval := interval
    value := raw
    rising := false
    falling := false
    lastValue := raw
    lastChangeTime := creationTime }

/-- Method `Debouncer.update` (`__init__.py` lines 39-51), with `now` and the
single raw sample made explicit parameters. -/
def Debouncer.update (s : Debouncer) (now : ℚ) (raw : Bool) : Debouncer :=
  let s1 := if raw ≠ s.lastValue then
      { s with lastValue := raw, lastChangeTime := now }
    else s
  let oldValue := s1.value
  let s2 := if now - s1.lastChangeTime > s1.interval then
      { s1 with value := raw }
    else s1
  { s2 with rising := s2.value && !oldValue, falling := !s2.value && oldValue }

/-- Normal form of one `update` step: `lastValue` always becomes the raw
sample, `lastChangeTime` resets exactly on a raw change, the stable value
commits exactly when `now - lastChangeTime > interval` (with the already
updated change time), and the edge flags compare new against old stable
value. -/
theorem Debouncer.update_eq (s : Debouncer) (now : ℚ) (raw : Bool) :
    s.update now raw =
      { interval := s.interval
        value := if now - (if raw = s.lastValue then s.lastChangeTime else now) >
            s.interval then raw else s.value
        rising := (if now - (if raw = s.lastValue then s.lastChangeTime else now) >
            s.interval then raw else s.value) && !s.value
        falling := !(if now - (if raw = s.lastValue then s.lastChangeTime else now) >
            s.interval then raw else s.value) && s.value
        lastValue := raw
        lastChangeTime := if raw = s.lastValue then s.lastChangeTime else now } := by
  unfold Debouncer.update
  by_cases h : raw = s.lastValue
  · simp only [h, ne_eq, not_true_eq_false, if_false, if_true, ite_true, ite_false]
    by_cases h2 : now - s.lastChangeTime > s.interval <;> simp [h, h2]
  · simp only [ne_eq, h, not_false_eq_true, if_true, ite_true, ite_false, if_false]
    by_cases h2 : s.interval < 0 <;> simp [h, h2, sub_self]

/-- Spec-side restatement of `update`, written from the spec's own words:
"reads raw value once. If it differs from `last_raw_value`, records the
new value and resets `last_change_time = now`. Then, independently, if
`now - last_change_time > interval`, sets `stable = raw`. Computes
`rising = stable_now && !stable_before`,
`falling = !stable_now && stable_before`."  To be compared with
`Debouncer.update`, which is translated from the source. -/
def Debouncer.updateSpec (s : Debouncer) (now : ℚ) (raw : Bool) : Debouncer :=
  let lastRaw := if raw ≠ s.lastValue then raw else s.lastValue
  let changeTime := if raw ≠ s.lastValue then now else s.lastChangeTime
  let stableBefore := s.value
  let stableNow := if now - changeTime > s.interval then raw else s.value
  { interval := s.interval
    value := stableNow
    rising := stableNow && !stableBefore
    falling := !stableNow && stableBefore
    lastValue := lastRaw
    lastChangeTime := changeTime }

/-- C1: one `update` call behaves exactly as the spec describes it: the
single raw sample replaces `_last_value` and resets `_last_change_time`
exactly when it differs from the recorded raw value; independently the
stable `value` becomes the raw sample iff `now - _last_change_time >
interval` (with the updated change time); `rising`/`falling` compare the
new stable value against the stable value before the call. -/
theorem update_matches_spec (s : Debouncer) (now : ℚ) (raw : Bool) :
    s.update now raw = s.updateSpec now raw := by
  rw [Debouncer.update_eq]
  unfold Debouncer.updateSpec
  by_cases h : raw = s.lastValue <;> simp [h]

/-- Helper: if an `update` left the stable value unchanged, both edge
flags come out false. -/
theorem Debouncer.flags_false_of_value_eq (s : Debouncer) (now : ℚ) (raw : Bool)
    (h : (s.update now raw).value = s.value) :
    (s.update now raw).rising = false ∧ (s.update now raw).falling = false := by
  rw [Debouncer.update_eq] at h ⊢
  simp only at h
  rw [h]
  cases s.value <;> simp

/-- C8: after any `update`, `rising` and `falling` are never both true,
and whenever the stable value did not change on that update, both flags
are false. -/
theorem edge_flags_exclusive (s : Debouncer) (now : ℚ) (raw : Bool) :
    ((s.update now raw).rising && (s.update now raw).falling) = false ∧
    ((s.update now raw).value = s.value →
      (s.update now raw).rising = false ∧ (s.update now raw).falling = false) := by
  refine ⟨?_, Debouncer.flags_false_of_value_eq s now raw⟩
  rw [Debouncer.update_eq]
  cases h : (if now - (if raw = s.lastValue then s.lastChangeTime else now) >
      s.interval then raw else s.value) <;> cases s.value <;> simp [h]

/-- C8 witness: at a concrete state and input where the stable value is
unchanged, both edge flags are false. -/
theorem edge_flags_exclusive_witness :
    ((Debouncer.init 1 true 0).update 2 true).rising = false ∧
    ((Debouncer.init 1 true 0).update 2 true).falling = false :=
  (edge_flags_exclusive (Debouncer.init 1 true 0) 2 true).2
    (by rw [Debouncer.update_eq]; norm_num [Debouncer.init])

/-- C9: calling `update` twice with the same timestamp and the same raw
sample leaves `rising = falling = false` after the second call. -/
theorem update_idempotent_flags (s : Debouncer) (t : ℚ) (r : Bool) :
    ((s.update t r).update t r).rising = false ∧
    ((s.update t r).update t r).falling = false := by
  have h1 : (s.update t r).lastValue = r := by rw [Debouncer.update_eq]
  have h2 : ((s.update t r).update t r).value = (s.update t r).value := by
    rw [Debouncer.update_eq (s.update t r), h1]
    simp only [if_pos rfl, ite_true]
    rw [Debouncer.update_eq s]
    by_cases h : r = s.lastValue <;>
      by_cases hc : t - (if r = s.lastValue then s.lastChangeTime else t) > s.interval <;>
      simp_all
  exact Debouncer.flags_false_of_value_eq (s.update t r) t r h2

/-- C3: with a zero or negative debounce interval every raw change
commits with no debounce delay: a raw sample differing from the stable
value becomes stable at the latest on the next tick (and already on the
same tick when the interval is strictly negative).  The configuration is
legal: `update` is total, no error path exists. -/
theorem degenerate_interval_commits (s : Debouncer) (t1 t2 : ℚ) (r : Bool)
    (hint : s.interval ≤ 0) (hlct : s.lastChangeTime ≤ t1) (ht : t1 < t2) :
    (s.interval < 0 → (s.update t1 r).value = r) ∧
    ((s.update t1 r).update t2 r).value = r := by
  have hlv : (s.update t1 r).lastValue = r := by rw [Debouncer.update_eq]
  have hint1 : (s.update t1 r).interval = s.interval := by rw [Debouncer.update_eq]
  have hlct1 : (s.update t1 r).lastChangeTime ≤ t1 := by
    rw [Debouncer.update_eq]
    by_cases h : r = s.lastValue <;> simp [h, hlct]
  constructor
  · intro hneg
    rw [Debouncer.update_eq]
    simp only
    split_ifs with h hc hc
    · rfl
    · exfalso; apply hc; linarith
    · rfl
    · exfalso; apply hc; linarith
  · have hcond : t2 - (s.update t1 r).lastChangeTime > (s.update t1 r).interval := by
      rw [hint1]; linarith
    rw [Debouncer.update_eq (s.update t1 r), hlv]
    simp [hcond]

/-- C3 witness at interval zero: a raw change away from a stable `false`
line becomes stable on the second tick. -/
theorem degenerate_interval_commits_witness :
    (((Debouncer.init 0 false 0).update 1 true).update 2 true).value = true :=
  (degenerate_interval_commits (Debouncer.init 0 false 0) 1 2 true
    (by norm_num [Debouncer.init]) (by norm_num [Debouncer.init]) (by norm_num)).2

/-- The successive debouncer states produced by feeding a list of
(timestamp, raw sample) pairs through `update`, as the poll loop does
once per tick. -/
def Debouncer.states (s : Debouncer) : List (ℚ × Bool) → List Debouncer
  | [] => []
  | p :: rest => (s.update p.1 p.2) :: (s.update p.1 p.2).states rest

/-- Helper: one step of the glitch invariant.  If the stable value is
`b`, the interval is `d > 0`, and every raw departure from `b` is sampled
inside the window `[w, w + d]` (with `lastChangeTime` inside the window
whenever the last raw sample already departed), then one more `update`
keeps the stable value at `b`, reports no edge, and preserves the
invariant. -/
theorem Debouncer.glitch_step (d w : ℚ) (b : Bool) (s : Debouncer) (t : ℚ) (r : Bool)
    (hd : 0 < d) (hi : s.interval = d) (hv : s.value = b)
    (hl : s.lastValue ≠ b → w ≤ s.lastChangeTime)
    (hr : r ≠ b → w ≤ t ∧ t ≤ w + d) :
    (s.update t r).interval = d ∧ (s.update t r).value = b ∧
    (s.update t r).rising = false ∧ (s.update t r).falling = false ∧
    ((s.update t r).lastValue ≠ b → w ≤ (s.update t r).lastChangeTime) := by
  have hival : (s.update t r).interval = d := by rw [Debouncer.update_eq]; exact hi
  have hval : (s.update t r).value = b := by
    rw [Debouncer.update_eq]
    simp only
    by_cases hb : r = b
    · subst hb; rw [← hv]; split_ifs <;> rfl
    · obtain ⟨hw1, hw2⟩ := hr hb
      by_cases h : r = s.lastValue
      · have hlc : w ≤ s.lastChangeTime := hl (by rw [← h]; exact hb)
        have hcond : ¬(t - (if r = s.lastValue then s.lastChangeTime else t) >
            s.interval) := by
          rw [if_pos h, hi]; linarith
        rw [if_neg hcond]; exact hv
      · have hcond : ¬(t - (if r = s.lastValue then s.lastChangeTime else t) >
            s.interval) := by
          rw [if_neg h, hi]; linarith
        rw [if_neg hcond]; exact hv
  have hflags := Debouncer.flags_false_of_value_eq s t r (by rw [hval, hv])
  refine ⟨hival, hval, hflags.1, hflags.2, ?_⟩
  rw [Debouncer.update_eq]
  simp only
  intro hrb
  obtain ⟨hw1, _⟩ := hr hrb
  by_cases h : r = s.lastValue
  · rw [if_pos h]; exact hl (h ▸ hrb)
  · rw [if_neg h]; exact hw1

/-- Helper: the glitch invariant carried along a whole sample list. -/
theorem Debouncer.glitch_aux (d w : ℚ) (b : Bool) (samples : List (ℚ × Bool)) :
    ∀ s : Debouncer, 0 < d → s.interval = d → s.value = b →
    (s.lastValue ≠ b → w ≤ s.lastChangeTime) →
    (∀ p ∈ samples, p.2 ≠ b → w ≤ p.1 ∧ p.1 ≤ w + d) →
    ∀ s' ∈ s.states samples,
      s'.value = b ∧ s'.rising = false ∧ s'.falling = false := by
  induction samples with
  | nil =>
    intro s _ _ _ _ _ s' hs'
    simp [Debouncer.states] at hs'
  | cons p rest ih =>
    intro s hd hi hv hl hw s' hs'
    obtain ⟨hi1, hv1, hr1, hf1, hl1⟩ :=
      Debouncer.glitch_step d w b s p.1 p.2 hd hi hv hl
        (hw p (List.mem_cons_self p rest))
    rcases (List.mem_cons.mp hs') with h | h
    · exact h ▸ ⟨hv1, hr1, hf1⟩
    · exact ih (s.update p.1 p.2) hd hi1 hv1 hl1
        (fun q hq => hw q (List.mem_cons_of_mem p hq)) s' h

/-- C2: an isolated raw glitch confined to a window of length at most the
(positive) debounce interval never changes the stable value and never
raises `rising` or `falling` at any update of the sequence. -/
theorem isolated_glitch_suppressed (d w : ℚ) (b : Bool) (s : Debouncer)
    (samples : List (ℚ × Bool))
    (hd : 0 < d) (hi : s.interval = d) (hv : s.value = b) (hl : s.lastValue = b)
    (hw : ∀ p ∈ samples, p.2 ≠ b → w ≤ p.1 ∧ p.1 ≤ w + d) :
    ∀ s' ∈ s.states samples,
      s'.value = b ∧ s'.rising = false ∧ s'.falling = false :=
  Debouncer.glitch_aux d w b samples s hd hi hv
    (fun h => absurd hl h) hw

/-- C2 witness: a concrete two-sample glitch (`false` at times 0 and 1,
inside the window `[0, 1]` of a debouncer with interval 1 whose stable
value is `true`) leaves the final stable value `true` with no edge. -/
theorem isolated_glitch_suppressed_witness :
    ((((Debouncer.init 1 true 0).update 0 false).update 1 false).update 2 true).value
        = true ∧
    ((((Debouncer.init 1 true 0).update 0 false).update 1 false).update 2 true).rising
        = false ∧
    ((((Debouncer.init 1 true 0).update 0 false).update 1 false).update 2 true).falling
        = false :=
  isolated_glitch_suppressed 1 0 true (Debouncer.init 1 true 0)
    [(0, false), (1, false), (2, true)]
    (by norm_num) rfl rfl rfl
    (by
      intro p hp hb
      fin_cases hp <;> simp_all)
    ((((Debouncer.init 1 true 0).update 0 false).update 1 false).update 2 true)
    (by simp [Debouncer.states])

/-- Print lifecycle events handled by `on_event` (`octoprint.events.Events`
members the source checks for; `other` stands for every other event). -/
inductive PrintEvent where
  | printStarted | printResumed | printDone | printFailed | printPaused
  | printCancelled | error | other
  deriving Repr, DecidableEq

/-- State of the `FilamentSensorUniversal` plugin object: the
settings-derived properties (`runout_chip`, `jam_chip`,
`runout_pause_print`, `jammed_pause_print`, `runout_gcode`,
`jammed_gcode`, the gcode strings already split into lines) together with
`_runout_debouncer`, `_jam_debouncer` and `_print_running`. -/
structure FilamentSensorUniversal where
  runout_chip : String
  jam_chip : String
  runout_pause_print : Bool
  jammed_pause_print : Bool
  runout_gcode : List String
  jammed_gcode : List String
  runoutDebouncer : Option Debouncer
  jamDebouncer : Option Debouncer
  printRunning : Bool
  deriving Repr, DecidableEq

namespace FilamentSensorUniversal

/-- Property `runout_sensor_enabled`: the chip setting is non-empty. -/
def runout_sensor_enabled (p : FilamentSensorUniversal) : Bool :=
  p.runout_chip != ""

/-- Property `jam_sensor_enabled`. -/
def jam_sensor_enabled (p : FilamentSensorUniversal) : Bool :=
  p.jam_chip != ""

/-- Property `runout_sensor`: `False` when no debouncer exists, otherwise
the negation of the debounced value (`not self._runout_debouncer.value`). -/
def runout_sensor (p : FilamentSensorUniversal) : Bool :=
  match p.runoutDebouncer with
  | none => false
  | some d => !d.value

/-- Property `jam_sensor`: `False` when no debouncer exists, otherwise
the debounced value. -/
def jam_sensor (p : FilamentSensorUniversal) : Bool :=
  match p.jamDebouncer with
  | none => false
  | some d => d.value

/-- Route handler `api_get_filament` (route `/filament`): the returned status string
(`jsonify` wrapper dropped). -/
def api_get_filament (p : FilamentSensorUniversal) : String :=
  if p.runout_sensor_enabled then
    if p.runout_sensor then "0" else "1"
  else "-1"

/-- Route handler `api_get_jammed` (route `/jammed`): the returned status string. -/
def api_get_jammed (p : FilamentSensorUniversal) : String :=
  if p.jam_sensor_enabled then
    if p.jam_sensor then "1" else "0"
  else "-1"

/-- Method `runout_handler`: returns the new plugin state, the number of
`pause_print` calls made, and the gcode lines sent via
`self._printer.commands`. -/
def runout_handler (p : FilamentSensorUniversal) :
    FilamentSensorUniversal × ℕ × List String :=
  if p.printRunning then
    let pauses := if p.runout_pause_print then 1 else 0
    let p1 := if p.runout_pause_print then { p with printRunning := false } else p
    let cmds := if p.runout_gcode = [] then [] else p.runout_gcode
    (p1, pauses, cmds)
  else (p, 0, [])

/-- Method `jam_handler`: analogous to `runout_handler`. -/
def jam_handler (p : FilamentSensorUniversal) :
    FilamentSensorUniversal × ℕ × List String :=
  if p.printRunning then
    let pauses := if p.jammed_pause_print then 1 else 0
    let p1 := if p.jammed_pause_print then { p with printRunning := false } else p
    let cmds := if p.jammed_gcode = [] then [] else p.jammed_gcode
    (p1, pauses, cmds)
  else (p, 0, [])

/-- Method `on_event`: returns the new plugin state and the number of
`cancel_print` calls made during the handling of the event. -/
def on_event (p : FilamentSensorUniversal) (event : PrintEvent) :
    FilamentSensorUniversal × ℕ :=
  let cancels :=
    if event = PrintEvent.printStarted then
      (if p.runout_sensor then 1 else 0) + (if p.jam_sensor then 1 else 0)
    else 0
  let p1 :=
    if event = PrintEvent.printStarted ∨ event = PrintEvent.printResumed then
      { p with printRunning := true }
    else if event = PrintEvent.printDone ∨ event = PrintEvent.printFailed ∨
        event = PrintEvent.printPaused ∨ event = PrintEvent.printCancelled ∨
        event = PrintEvent.error then
      { p with printRunning := false }
    else p
  (p1, cancels)

/-- One iteration of the `while True` loop in `_sensor_thread`.  GPIO
reads may fail (`OSError` from `line.get_value()`), modelled as
`Except.error`; a handler may in turn raise through its `_printer` calls,
modelled by the two `Raises` flags.  The source contains no
`try`/`except` in this loop, so the embedding propagates every failure.
Returns the new state, pause count and sent gcode of the tick. -/
def sensor_thread_tick (p : FilamentSensorUniversal)
    (runoutRead jamRead : Except Unit Bool) (now : ℚ)
    (runoutHandlerRaises jamHandlerRaises : Bool) :
    Except Unit (FilamentSensorUniversal × ℕ × List String) := do
  let (p1, runoutTriggered) ←
    match p.runoutDebouncer with
    | none => pure (p, false)
    | some d => do
        let raw ← runoutRead
        let d1 := d.update now raw
        pure ({ p with runoutDebouncer := some d1 }, d1.falling)
  let (p2, jamTriggered) ←
    match p1.jamDebouncer with
    | none => pure (p1, false)
    | some d => do
        let raw ← jamRead
        let d1 := d.update now raw
        pure ({ p1 with jamDebouncer := some d1 }, d1.rising)
  let (p3, pauses1, cmds1) ←
    if runoutTriggered then
      if runoutHandlerRaises then Except.error () else pure p2.runout_handler
    else pure (p2, 0, ([] : List String))
  let (p4, pauses2, cmds2) ←
    if jamTriggered then
      if jamHandlerRaises then Except.error () else pure p3.jam_handler
    else pure (p3, 0, ([] : List String))
  pure (p4, pauses1 + pauses2, cmds1 ++ cmds2)

end FilamentSensorUniversal

/-- A concrete plugin state for the closed statements below: runout
sensor configured and stable at `true` (filament present), jam sensor
absent, print running, pause-on-trigger enabled. -/
def samplePlugin : FilamentSensorUniversal :=
  { runout_chip := "gpiochip0"
    jam_chip := ""
    runout_pause_print := true
    jammed_pause_print := true
    runout_gcode := []
    jammed_gcode := []
    runoutDebouncer := some (Debouncer.init 1 true 0)
    jamDebouncer := none
    printRunning := true }

/-- A debouncer primed so that the next tick commits a falling edge:
stable `true`, raw already `false` since time `-10`, interval 1. -/
def primedDebouncer : Debouncer :=
  { interval := 1
    value := true
    rising := false
    falling := false
    lastValue := false
    lastChangeTime := -10 }

/-- Like `samplePlugin` but with the runout debouncer primed to fire a
falling edge on its next update. -/
def fallingPlugin : FilamentSensorUniversal :=
  { samplePlugin with runoutDebouncer := some primedDebouncer }

/-- Plugin state with both sensors enabled in settings but both setups
failed (no debouncers). -/
def brokenSensorPlugin : FilamentSensorUniversal :=
  { samplePlugin with
    jam_chip := "gpiochip0"
    runoutDebouncer := none
    jamDebouncer := none
    printRunning := false }

/-- Plugin state with the runout sensor currently reading "filament
absent" (stable value `false`, so `runout_sensor` is true). -/
def runoutTriggeredPlugin : FilamentSensorUniversal :=
  { samplePlugin with
    runoutDebouncer := some (Debouncer.init 1 false 0)
    printRunning := false }

/-- Plugin state with pause-on-trigger disabled for both sensors. -/
def noPausePlugin : FilamentSensorUniversal :=
  { samplePlugin with runout_pause_print := false, jammed_pause_print := false }

/-- C6: with pause-on-trigger enabled and the gate active, one runout
edge dispatches exactly one `pause_print` call and deactivates the gate;
a second edge arriving before the gate is reactivated dispatches no
pause, sends no commands, and leaves the state unchanged. -/
theorem runout_edge_pauses_once (p : FilamentSensorUniversal)
    (hpr : p.printRunning = true) (hpp : p.runout_pause_print = true) :
    p.runout_handler.2.1 = 1 ∧
    p.runout_handler.1.printRunning = false ∧
    p.runout_handler.1.runout_handler.2.1 = 0 ∧
    p.runout_handler.1.runout_handler.2.2 = [] ∧
    p.runout_handler.1.runout_handler.1 = p.runout_handler.1 := by
  unfold FilamentSensorUniversal.runout_handler
  simp [hpr, hpp]

/-- C6 witness at `samplePlugin`. -/
theorem runout_edge_pauses_once_witness :
    samplePlugin.runout_handler.2.1 = 1 ∧
    samplePlugin.runout_handler.1.printRunning = false ∧
    samplePlugin.runout_handler.1.runout_handler.2.1 = 0 ∧
    samplePlugin.runout_handler.1.runout_handler.2.2 = [] ∧
    samplePlugin.runout_handler.1.runout_handler.1 = samplePlugin.runout_handler.1 :=
  runout_edge_pauses_once samplePlugin rfl rfl

/-- C7: when a print-started event arrives while a sensor's stabilized
state already indicates out-of-filament or jammed, at least one
`cancel_print` call is made during the handling of that event. -/
theorem print_start_cancels_on_triggered_sensor (p : FilamentSensorUniversal)
    (h : p.runout_sensor = true ∨ p.jam_sensor = true) :
    1 ≤ (p.on_event PrintEvent.printStarted).2 := by
  unfold FilamentSensorUniversal.on_event
  rcases h with h | h <;> simp [h]

/-- C7 witness: a plugin whose runout debouncer stabilized at `false`
(filament absent) gets a cancel on print start. -/
theorem print_start_cancels_on_triggered_sensor_witness :
    1 ≤ (runoutTriggeredPlugin.on_event PrintEvent.printStarted).2 :=
  print_start_cancels_on_triggered_sensor runoutTriggeredPlugin (Or.inl rfl)

/-- C10: on a print-started event `_print_running` becomes true
unconditionally (in particular also when the same call just issued
cancels); `on_event` turns the gate off only for the done / failed /
paused / cancelled / error events; and a handler turns the gate off only
when its pause-on-trigger setting is on. -/
theorem print_started_sets_gate_unconditionally :
    (∀ p : FilamentSensorUniversal,
      (p.on_event PrintEvent.printStarted).1.printRunning = true) ∧
    (∀ (p : FilamentSensorUniversal) (ev : PrintEvent),
      (p.on_event ev).1.printRunning = false →
      p.printRunning = false ∨ ev = PrintEvent.printDone ∨
      ev = PrintEvent.printFailed ∨ ev = PrintEvent.printPaused ∨
      ev = PrintEvent.printCancelled ∨ ev = PrintEvent.error) ∧
    (∀ p : FilamentSensorUniversal, p.printRunning = true →
      p.runout_pause_print = false → p.runout_handler.1.printRunning = true) ∧
    (∀ p : FilamentSensorUniversal, p.printRunning = true →
      p.jammed_pause_print = false → p.jam_handler.1.printRunning = true) := by
  refine ⟨?_, ?_, ?_, ?_⟩
  · intro p
    simp [FilamentSensorUniversal.on_event]
  · intro p ev h
    cases ev <;> simp_all [FilamentSensorUniversal.on_event]
  · intro p h1 h2
    simp [FilamentSensorUniversal.runout_handler, h1, h2]
  · intro p h1 h2
    simp [FilamentSensorUniversal.jam_handler, h1, h2]

/-- C10 witness: the gate is set on print start even though the same call
cancels (runout already triggered); a done event turns it off; a handler
without pause-on-trigger leaves it on. -/
theorem print_started_sets_gate_unconditionally_witness :
    (runoutTriggeredPlugin.on_event PrintEvent.printStarted).1.printRunning = true ∧
    (samplePlugin.printRunning = false ∨ PrintEvent.printDone = PrintEvent.printDone ∨
      PrintEvent.printDone = PrintEvent.printFailed ∨
      PrintEvent.printDone = PrintEvent.printPaused ∨
      PrintEvent.printDone = PrintEvent.printCancelled ∨
      PrintEvent.printDone = PrintEvent.error) ∧
    noPausePlugin.runout_handler.1.printRunning = true :=
  ⟨print_started_sets_gate_unconditionally.1 runoutTriggeredPlugin,
   print_started_sets_gate_unconditionally.2.1 samplePlugin PrintEvent.printDone rfl,
   print_started_sets_gate_unconditionally.2.2.1 noPausePlugin rfl rfl⟩

/-- C5 counterexample: with the runout sensor enabled in settings but its
setup failed (no debouncer), the status query returns "1" — the very
string a healthy sensor returns for "filament present" — and not "-1";
likewise the jam query returns the safe-looking "0". -/
theorem broken_sensor_not_reported_disabled :
    brokenSensorPlugin.api_get_filament = "1" ∧
    brokenSensorPlugin.api_get_filament ≠ "-1" ∧
    brokenSensorPlugin.api_get_jammed = "0" ∧
    brokenSensorPlugin.api_get_jammed ≠ "-1" ∧
    samplePlugin.api_get_filament = "1" := by
  refine ⟨rfl, ?_, rfl, ?_, rfl⟩ <;> decide

/-- C5 amended: the status queries return "-1" exactly when the sensor is
disabled in settings; an enabled sensor whose setup failed (debouncer
absent) returns the same value as a healthy, non-triggered sensor ("1"
for the filament query, "0" for the jam query), so a broken sensor is
reported as safe. -/
theorem api_disabled_only_by_settings (p : FilamentSensorUniversal) :
    (p.api_get_filament = "-1" ↔ p.runout_sensor_enabled = false) ∧
    (p.api_get_jammed = "-1" ↔ p.jam_sensor_enabled = false) ∧
    (p.runout_sensor_enabled = true → p.runoutDebouncer = none →
      p.api_get_filament = "1") ∧
    (p.jam_sensor_enabled = true → p.jamDebouncer = none →
      p.api_get_jammed = "0") := by
  unfold FilamentSensorUniversal.api_get_filament FilamentSensorUniversal.api_get_jammed
  refine ⟨?_, ?_, ?_, ?_⟩
  · by_cases h : p.runout_sensor_enabled
    · simp only [h, if_true, ite_true]
      cases hs : p.runout_sensor <;> simp [h, hs]
    · simp [h]
  · by_cases h : p.jam_sensor_enabled
    · simp only [h, if_true, ite_true]
      cases hs : p.jam_sensor <;> simp [h, hs]
    · simp [h]
  · intro h hd
    simp [h, FilamentSensorUniversal.runout_sensor, hd]
  · intro h hd
    simp [h, FilamentSensorUniversal.jam_sensor, hd]

/-- C5 amended witness at `brokenSensorPlugin`. -/
theorem api_disabled_only_by_settings_witness :
    brokenSensorPlugin.api_get_filament = "1" ∧
    brokenSensorPlugin.api_get_jammed = "0" :=
  ⟨(api_disabled_only_by_settings brokenSensorPlugin).2.2.1 rfl rfl,
   (api_disabled_only_by_settings brokenSensorPlugin).2.2.2 rfl rfl⟩

/-- C4 counterexample: at a concrete plugin state with a configured
runout sensor, a failing GPIO read is not caught: the whole loop-body
tick evaluates to an error instead of a state with the previous raw value
retained, so the polling thread terminates exceptionally. -/
theorem read_failure_kills_tick :
    samplePlugin.sensor_thread_tick (Except.error ()) (Except.ok true) 1 false false
      = Except.error () ∧
    samplePlugin.sensor_thread_tick (Except.error ()) (Except.ok true) 1 false false
      ≠ Except.ok (samplePlugin, 0, []) := by
  refine ⟨rfl, fun h => ?_⟩
  rw [show samplePlugin.sensor_thread_tick (Except.error ()) (Except.ok true) 1
      false false = Except.error () from rfl] at h
  exact Except.noConfusion h

/-- C4 amended: `_sensor_thread` contains no exception handling, so each
of the four failure sources of a tick propagates out of the loop body
(and hence terminates the polling thread) instead of being logged and
skipped: a failing runout read, a failing jam read, a runout handler
exception on a genuine falling edge, and a jam handler exception on a
genuine rising edge. -/
theorem tick_failures_propagate :
    (∀ (p : FilamentSensorUniversal) (jamRead : Except Unit Bool) (now : ℚ)
      (rh jh : Bool) (d : Debouncer), p.runoutDebouncer = some d →
      p.sensor_thread_tick (Except.error ()) jamRead now rh jh = Except.error ()) ∧
    (∀ (p : FilamentSensorUniversal) (runoutRead : Except Unit Bool) (now : ℚ)
      (rh jh : Bool) (dj : Debouncer), p.jamDebouncer = some dj →
      p.sensor_thread_tick runoutRead (Except.error ()) now rh jh
        = Except.error ()) ∧
    (∀ (p : FilamentSensorUniversal) (now : ℚ) (r q jh : Bool) (d : Debouncer),
      p.runoutDebouncer = some d → (d.update now r).falling = true →
      p.sensor_thread_tick (Except.ok r) (Except.ok q) now true jh
        = Except.error ()) ∧
    (∀ (p : FilamentSensorUniversal) (now : ℚ) (r q rh : Bool) (dj : Debouncer),
      p.jamDebouncer = some dj → (dj.update now q).rising = true →
      p.sensor_thread_tick (Except.ok r) (Except.ok q) now rh true
        = Except.error ()) := by
  refine ⟨?_, ?_, ?_, ?_⟩
  · intro p jamRead now rh jh d hd
    unfold FilamentSensorUniversal.sensor_thread_tick
    rw [hd]
    simp [Except.instMonad, Except.bind]
  · intro p runoutRead now rh jh dj hj
    unfold FilamentSensorUniversal.sensor_thread_tick
    cases hd : p.runoutDebouncer <;> cases runoutRead <;>
      simp [hj, Except.instMonad, Except.bind, Except.pure]
  · intro p now r q jh d hd hfall
    unfold FilamentSensorUniversal.sensor_thread_tick
    rw [hd]
    cases hj : p.jamDebouncer <;>
      simp [hj, hfall, Except.instMonad, Except.bind, Except.pure]
  · intro p now r q rh dj hj hrise
    unfold FilamentSensorUniversal.sensor_thread_tick
    cases hd : p.runoutDebouncer with
    | none =>
      simp [hj, hrise, Except.instMonad, Except.bind, Except.pure]
    | some d =>
      cases hf : (d.update now r).falling <;> cases rh <;>
        simp [hj, hrise, hf, Except.instMonad, Except.bind, Except.pure]

/-- A debouncer primed so that the next tick commits a rising edge:
stable `false`, raw already `true` since time `-10`, interval 1. -/
def risingJamDebouncer : Debouncer :=
  { interval := 1
    value := false
    rising := false
    falling := false
    lastValue := true
    lastChangeTime := -10 }

/-- Plugin state with a configured jam sensor stabilized at `false` and
no runout sensor. -/
def jamPlugin : FilamentSensorUniversal :=
  { samplePlugin with
    runoutDebouncer := none
    jamDebouncer := some (Debouncer.init 1 false 0) }

/-- Plugin state whose jam debouncer is primed to fire a rising edge on
its next update, with no runout sensor. -/
def risingJamPlugin : FilamentSensorUniversal :=
  { samplePlugin with
    runoutDebouncer := none
    jamDebouncer := some risingJamDebouncer }

/-- C4 amended witness: a failing runout read, a failing jam read, a
runout handler exception on a falling edge, and a jam handler exception
on a rising edge each kill the tick at a concrete plugin state. -/
theorem tick_failures_propagate_witness :
    samplePlugin.sensor_thread_tick (Except.error ()) (Except.ok true) 2 false false
      = Except.error () ∧
    jamPlugin.sensor_thread_tick (Except.ok true) (Except.error ()) 1 false false
      = Except.error () ∧
    fallingPlugin.sensor_thread_tick (Except.ok false) (Except.ok true) 0 true false
      = Except.error () ∧
    risingJamPlugin.sensor_thread_tick (Except.ok true) (Except.ok true) 0 false true
      = Except.error () :=
  ⟨tick_failures_propagate.1 samplePlugin (Except.ok true) 2 false false
     (Debouncer.init 1 true 0) rfl,
   tick_failures_propagate.2.1 jamPlugin (Except.ok true) 1 false false
     (Debouncer.init 1 false 0) rfl,
   tick_failures_propagate.2.2.1 fallingPlugin 0 false true false primedDebouncer rfl
     (by rw [Debouncer.update_eq]; norm_num [primedDebouncer]),
   tick_failures_propagate.2.2.2 risingJamPlugin 0 true true false risingJamDebouncer
     rfl (by rw [Debouncer.update_eq]; norm_num [risingJamDebouncer])⟩

end FilamentSensor
